import Mathlib

/-!
Shallow embedding of the API-key authentication and quota-enforcement
gateway: the `ApiKey` / `RateLimit` Mongoose models, the
`authenticateApiKey` and `rateLimitByApiKey` middleware, and the admin
controller operations (`createApiKey`, `listApiKeys`, `updateApiKey`,
`deleteApiKey`, `regenerateApiKey`).

Modelling conventions:
- Timestamps are `Int` milliseconds (JS `Date` values compare numerically).
- A Mongo collection is a `List` of records; `findOne` is `List.find?`,
  an in-place `save` / `findOneAndUpdate` rewrites the first matching
  record, `findOneAndDelete` removes it.
- JS `undefined`/absent values are `Option.none`; JS string falsiness
  (`!s` true for `""` and `undefined`) is modelled explicitly.
- Fallible store operations (`save`, `countDocuments`, `create`) are
  given an explicit boolean "did this call succeed" parameter, so the
  try/catch of the middleware behaviour is a total function of it.
-/

namespace Gateway

/-- One document of the `ApiKey` Mongoose model (src/unnamed/part_000).
`metadata` is the schema field of type `Map` of strings, modelled as an association
list; schema defaults (`isActive := true`, `rateLimit := 100`,
`usageCount := 0`, `createdAt := Date.now`) are applied at creation. -/
structure ApiKeyRecord where
  key : String
  name : String
  clientId : String
  isActive : Bool
  rateLimit : Int
  usageCount : Int
  lastUsed : Option Int
  createdAt : Int
  expiresAt : Option Int
  allowedIPs : List String
  metadata : List (String × String)
  contactEmail : Option String
  notes : Option String
deriving DecidableEq

/-- One document of the `RateLimit` Mongoose model: a usage event
`{clientId, endpoint, timestamp}` (src/unnamed/part_000). -/
structure UsageEvent where
  clientId : String
  endpoint : String
  timestamp : Int
deriving DecidableEq

/-- The parts of an Express request the middleware reads: the
`x-api-key` and `authorization` headers, `req.ip`,
`req.connection.remoteAddress`, and `req.path`. -/
structure Request where
  xApiKey : Option String
  authorization : Option String
  ip : Option String
  remoteAddress : Option String
  path : String
deriving DecidableEq

/-- The identity attached to the request on success:
`req.apiClient = {clientId, name, rateLimit}`. -/
structure ApiClient where
  clientId : String
  name : String
  rateLimit : Int
deriving DecidableEq

/-- Rewrites the first element satisfying `p` by `f`, leaving the rest
unchanged (the effect of mutating the single doc returned by `findOne`
and calling `save`, or of `findOneAndUpdate`). -/
def updateFirst (p : α → Bool) (f : α → α) : List α → List α
  | [] => []
  | x :: xs => if p x then f x :: xs else x :: updateFirst p f xs

/-- Removes the first element satisfying `p` (the effect of
`findOneAndDelete`). -/
def removeFirst (p : α → Bool) : List α → List α
  | [] => []
  | x :: xs => if p x then xs else x :: removeFirst p xs

/-- JS string truthiness for an optional header or body field:
`undefined` and `""` are falsy. -/
def jsTruthy : Option String → Bool
  | some s => s ≠ ""
  | none => false

/-- Replaces the first occurrence of `pat` in `s` by `rep`, matching the
semantics of JS `String.prototype.replace` with a string pattern
(used to strip the `Bearer ` tag from the authorization header). -/
def replaceFirst (s pat rep : String) : String :=
  match s.splitOn pat with
  | [] => s
  | [x] => x
  | x :: xs => x ++ rep ++ String.intercalate pat xs

/-- The presented secret:
the `x-api-key` header, or else the `authorization` header with its
first `Bearer ` occurrence stripped.
An empty `x-api-key` is falsy, so the `authorization` carrier is
consulted; an absent `authorization` leaves the secret undefined. -/
def presentedKey (req : Request) : Option String :=
  let fromAuth : Option String :=
    match req.authorization with
    | some a => some (replaceFirst a "Bearer " "")
    | none => none
  match req.xApiKey with
  | some k => if k ≠ "" then some k else fromAuth
  | none => fromAuth

/-- The requester address: `req.ip || req.connection.remoteAddress`. -/
def clientIP (req : Request) : Option String :=
  match req.ip with
  | some i => if i ≠ "" then some i else req.remoteAddress
  | none => req.remoteAddress

/-- Expiry test of the middleware:
`keyDoc.expiresAt && new Date() > keyDoc.expiresAt`. -/
def isExpired (doc : ApiKeyRecord) (now : Int) : Bool :=
  match doc.expiresAt with
  | some e => now > e
  | none => false

/-- IP-whitelist test of the middleware: a non-empty `allowedIPs` must
contain the requester address; an unresolvable address is not allowed. -/
def ipBlocked (doc : ApiKeyRecord) (req : Request) : Bool :=
  if doc.allowedIPs.length > 0 then
    match clientIP req with
    | some ip => !(doc.allowedIPs.contains ip)
    | none => true
  else false

/-- Outcome of the `authenticateApiKey` middleware. Each failure
constructor is one early-return response; `success` carries the
attached `req.apiClient` and the credential store after the
usage-stats save. -/
inductive AuthResult where
  /-- 401 `MISSING_API_KEY`. -/
  | missingKey
  /-- 401 `INVALID_API_KEY`. -/
  | invalidKey
  /-- 403 `DISABLED_API_KEY`. -/
  | disabledKey
  /-- 403 `EXPIRED_API_KEY`. -/
  | expiredKey
  /-- 403 `IP_NOT_ALLOWED`. -/
  | ipNotAllowed
  /-- 500 `AUTH_ERROR`: the catch block fired. -/
  | authError
  /-- `next()` was called with `req.apiClient` attached. -/
  | success (client : ApiClient) (store : List ApiKeyRecord)
deriving DecidableEq

/-- The `authenticateApiKey` middleware (src/unnamed/part_002, lines
33-109). `saveOk` is whether `keyDoc.save()` succeeds; when it throws,
control reaches the catch block, which answers 500 `AUTH_ERROR`. -/
def authenticateApiKey (req : Request) (store : List ApiKeyRecord)
    (now : Int) (saveOk : Bool) : AuthResult :=
  match presentedKey req with
  | none => .missingKey
  | some apiKey =>
    if apiKey = "" then .missingKey
    else
      match store.find? (fun d => d.key == apiKey) with
      | none => .invalidKey
      | some keyDoc =>
        if !keyDoc.isActive then .disabledKey
        else if isExpired keyDoc now then .expiredKey
        else if ipBlocked keyDoc req then .ipNotAllowed
        else if saveOk then
          .success
            { clientId := keyDoc.clientId, name := keyDoc.name,
              rateLimit := keyDoc.rateLimit }
            (updateFirst (fun d => d.key == apiKey)
              (fun d => { d with usageCount := d.usageCount + 1,
                                 lastUsed := some now }) store)
        else .authError

/-- Outcome of the `rateLimitByApiKey` middleware; both constructors
carry the usage ledger after the call. -/
inductive RateLimitResult where
  /-- 429 `RATE_LIMIT_EXCEEDED` carrying `limit` and `retryAfter`. -/
  | rejected (limit : Int) (retryAfter : Int) (ledger : List UsageEvent)
  /-- `next()` was called. -/
  | admitted (ledger : List UsageEvent)
deriving DecidableEq

/-- The `countDocuments({clientId, timestamp: {$gte: oneHourAgo}})`
query of the rate limiter. -/
def countRecentRequests (ledger : List UsageEvent) (clientId : String)
    (oneHourAgo : Int) : Nat :=
  (ledger.filter
    (fun e => e.clientId == clientId && oneHourAgo ≤ e.timestamp)).length

/-- The `rateLimitByApiKey` middleware (src/unnamed/part_002, lines
114-150). `countOk` and `createOk` are whether `countDocuments` and
`RateLimit.create` succeed; either throwing lands in the catch block,
which calls `next()` — the request continues even if rate limiting
fails. -/
def rateLimitByApiKey (client : ApiClient) (ledger : List UsageEvent)
    (now : Int) (reqPath : String) (countOk createOk : Bool) :
    RateLimitResult :=
  if !countOk then .admitted ledger
  else
    let oneHourAgo : Int := now - 60 * 60 * 1000
    let requestCount := countRecentRequests ledger client.clientId oneHourAgo
    if (requestCount : Int) ≥ client.rateLimit then
      .rejected client.rateLimit 3600 ledger
    else if !createOk then .admitted ledger
    else .admitted (ledger ++
      [{ clientId := client.clientId, endpoint := reqPath, timestamp := now }])

/-- Request body of `POST /api/admin/keys` as destructured by
`createApiKey`: every field may be absent; the destructuring defaults
(`rateLimit = 100`, `allowedIPs = []`) are applied inside the
controller. -/
structure CreateBody where
  name : Option String
  clientId : Option String
  rateLimit : Option Int
  expiresInDays : Option Int
  allowedIPs : Option (List String)
  contactEmail : Option String
  notes : Option String
deriving DecidableEq

/-- The document `ApiKey.create` inserts for a passing `createApiKey`
call: the explicit fields of the controller plus the schema defaults
(`isActive := true`, `usageCount := 0`, `createdAt := now`).
`expiresAt` is `now + expiresInDays` in ms when `expiresInDays` is
truthy (a nonzero number), else `null`. -/
def newRecord (body : CreateBody) (generatedKey : String) (now : Int) :
    ApiKeyRecord :=
  { key := generatedKey
    name := body.name.getD ""
    clientId := body.clientId.getD ""
    isActive := true
    rateLimit := body.rateLimit.getD 100
    usageCount := 0
    lastUsed := none
    createdAt := now
    expiresAt :=
      match body.expiresInDays with
      | some d => if d ≠ 0 then some (now + d * 24 * 60 * 60 * 1000) else none
      | none => none
    allowedIPs := body.allowedIPs.getD []
    metadata := []
    contactEmail := body.contactEmail
    notes := body.notes }

/-- Outcome of `createApiKey`; both constructors carry the credential
store after the call, so "no partial record" is expressible. -/
inductive CreateResult where
  /-- 400 with the given `error` string; the store is untouched. -/
  | badRequest (error : String) (store : List ApiKeyRecord)
  /-- 201, echoing the generated key once. -/
  | created (apiKey : String) (store : List ApiKeyRecord)
deriving DecidableEq

/-- The `createApiKey` controller (src/controllers/adminController.js,
lines 9-77). `generatedKey` stands for the `generateApiKey` call, whose cryptographic randomness is outside the model. -/
def createApiKey (store : List ApiKeyRecord) (body : CreateBody)
    (generatedKey : String) (now : Int) : CreateResult :=
  if ¬ (jsTruthy body.name ∧ jsTruthy body.clientId) then
    .badRequest "name and clientId are required" store
  else
    match store.find? (fun d => d.clientId == body.clientId.getD "") with
    | some _ => .badRequest "Client ID already exists" store
    | none => .created generatedKey (store ++ [newRecord body generatedKey now])

/-- Checks whether `hay` has `needle` as a contiguous run
(for the case-insensitive `$regex` filter with a literal pattern). -/
def listStartsWith [BEq α] : List α → List α → Bool
  | [], _ => true
  | _ :: _, [] => false
  | a :: as, b :: bs => a == b && listStartsWith as bs

/-- Recursion over starting points for `listStartsWith`. -/
def listContainsSeq [BEq α] (needle : List α) : List α → Bool
  | [] => needle.isEmpty
  | x :: xs => listStartsWith needle (x :: xs) || listContainsSeq needle xs

/-- The `$or` of the two case-insensitive `$regex` clauses of
`listApiKeys`, for a literal search string: `search` occurs in `name`
or in `clientId`, ignoring case. -/
def matchesSearch (search : String) (k : ApiKeyRecord) : Bool :=
  listContainsSeq search.toLower.toList k.name.toLower.toList ||
    listContainsSeq search.toLower.toList k.clientId.toLower.toList

/-- The records returned by the `listApiKeys` controller
(src/controllers/adminController.js, lines 84-127): filter by the
optional `active` query flag (string-compared to `"true"`) and the
optional `search` term (falsy when empty), then sort by `createdAt`
descending. -/
def listApiKeys (store : List ApiKeyRecord)
    (active search : Option String) : List ApiKeyRecord :=
  let afterActive :=
    match active with
    | some a => store.filter (fun k : ApiKeyRecord => k.isActive == (a == "true"))
    | none => store
  let afterSearch :=
    match search with
    | some s =>
      if s ≠ "" then afterActive.filter (matchesSearch s) else afterActive
    | none => afterActive
  afterSearch.mergeSort (fun a b => decide (a.createdAt ≥ b.createdAt))

/-- Request body of `PUT /api/admin/keys/:clientId`. The seven
allow-listed fields carry a value when supplied (`!== undefined`); for
the nullable stored fields, a supplied `null` is the inner `none`.
The trailing fields model a caller also supplying non-allow-listed
fields such as `key`, `clientId`, `usageCount`, `createdAt`: the
controller never reads them. -/
structure UpdateBody where
  name : Option String
  isActive : Option Bool
  rateLimit : Option Int
  expiresAt : Option (Option Int)
  allowedIPs : Option (List String)
  contactEmail : Option (Option String)
  notes : Option (Option String)
  key : Option String
  clientId : Option String
  usageCount : Option Int
  createdAt : Option Int
deriving DecidableEq

/-- The `updates` object built by the `allowedUpdates.forEach` loop of
`updateApiKey`, applied to a stored record: exactly the allow-listed
fields `{name, isActive, rateLimit, expiresAt, allowedIPs,
contactEmail, notes}` that were supplied are overwritten. -/
def applyUpdates (body : UpdateBody) (k : ApiKeyRecord) : ApiKeyRecord :=
  { k with
    name := body.name.getD k.name
    isActive := body.isActive.getD k.isActive
    rateLimit := body.rateLimit.getD k.rateLimit
    expiresAt := body.expiresAt.getD k.expiresAt
    allowedIPs := body.allowedIPs.getD k.allowedIPs
    contactEmail := body.contactEmail.getD k.contactEmail
    notes := body.notes.getD k.notes }

/-- Outcome of `updateApiKey`. -/
inductive UpdateResult where
  /-- 404 "API key not found". -/
  | notFound
  /-- 200 with the updated record (`new: true`) and the store after
  `findOneAndUpdate`. -/
  | updated (record : ApiKeyRecord) (store : List ApiKeyRecord)
deriving DecidableEq

/-- The `updateApiKey` controller (src/controllers/adminController.js,
lines 179-218): `findOneAndUpdate({clientId}, updates, {new: true})`. -/
def updateApiKey (store : List ApiKeyRecord) (clientId : String)
    (body : UpdateBody) : UpdateResult :=
  match store.find? (fun d => d.clientId == clientId) with
  | none => .notFound
  | some doc =>
    .updated (applyUpdates body doc)
      (updateFirst (fun d => d.clientId == clientId) (applyUpdates body) store)

/-- Outcome of `deleteApiKey`: the controller always answers 200 with a
message; the store after the call is carried alongside. -/
inductive DeleteResult where
  | ok (message : String) (store : List ApiKeyRecord)
deriving DecidableEq

/-- The `deleteApiKey` controller (src/controllers/adminController.js,
lines 225-254). `hardDelete` is the raw query parameter (a string when
supplied); only the exact string `"true"` selects permanent deletion,
otherwise the record is soft-deleted by setting `isActive := false`.
No not-found check is made in either branch. -/
def deleteApiKey (store : List ApiKeyRecord) (clientId : String)
    (hardDelete : Option String) : DeleteResult :=
  if hardDelete == some "true" then
    .ok "API key deleted permanently"
      (removeFirst (fun d => d.clientId == clientId) store)
  else
    .ok "API key deactivated"
      (updateFirst (fun d => d.clientId == clientId)
        (fun d => { d with isActive := false }) store)

/-- Outcome of `regenerateApiKey`. -/
inductive RegenResult where
  /-- 404 "API key not found". -/
  | notFound
  /-- 200, echoing the fresh key once, with the store after the save. -/
  | regenerated (apiKey : String) (store : List ApiKeyRecord)
deriving DecidableEq

/-- The `regenerateApiKey` controller (src/controllers/adminController.js,
lines 261-299): find the record by `clientId`, replace `key` with a
freshly generated secret, reset `usageCount := 0` and
`lastUsed := null`, and save. `freshKey` stands for the
`generateApiKey` call. -/
def regenerateApiKey (store : List ApiKeyRecord) (clientId : String)
    (freshKey : String) : RegenResult :=
  match store.find? (fun d => d.clientId == clientId) with
  | none => .notFound
  | some _ =>
    .regenerated freshKey
      (updateFirst (fun d => d.clientId == clientId)
        (fun d => { d with key := freshKey, usageCount := 0,
                           lastUsed := none }) store)

/-! Helper lemmas about `updateFirst` and `removeFirst`. -/

/-- A `findOneAndUpdate` whose filter matches nothing leaves the
collection unchanged. -/
theorem updateFirst_eq_self (p : α → Bool) (f : α → α) (l : List α)
    (h : l.find? p = none) : updateFirst p f l = l := by
  induction l with
  | nil => rfl
  | cons x xs ih =>
    cases hx : p x with
    | true => simp [List.find?, hx] at h
    | false =>
      simp only [List.find?, hx] at h
      simp [updateFirst, hx, ih h]

/-- A `findOneAndDelete` whose filter matches nothing leaves the
collection unchanged. -/
theorem removeFirst_eq_self (p : α → Bool) (l : List α)
    (h : l.find? p = none) : removeFirst p l = l := by
  induction l with
  | nil => rfl
  | cons x xs ih =>
    cases hx : p x with
    | true => simp [List.find?, hx] at h
    | false =>
      simp only [List.find?, hx] at h
      simp [removeFirst, hx, ih h]

/-- The rewritten image of the record that `find?` returns is in the
updated collection. -/
theorem mem_updateFirst (p : α → Bool) (f : α → α) (l : List α) (r : α)
    (hfind : l.find? p = some r) : f r ∈ updateFirst p f l := by
  induction l with
  | nil => simp at hfind
  | cons x xs ih =>
    cases hx : p x with
    | true =>
      simp only [List.find?, hx, Option.some_inj] at hfind
      subst hfind
      simp [updateFirst, hx]
    | false =>
      simp only [List.find?, hx] at hfind
      simp only [updateFirst, hx, if_neg]
      exact List.mem_cons_of_mem _ (ih hfind)

/-- When at most one element satisfies `q`, and the first `p`-match `r`
is such an element, deleting the first `p`-match leaves no `q`-match. -/
theorem find?_removeFirst_unique (p q : α → Bool) (l : List α) (r : α)
    (hfind : l.find? p = some r) (hq : q r = true)
    (hlen : (l.filter q).length ≤ 1) :
    (removeFirst p l).find? q = none := by
  induction l with
  | nil => simp at hfind
  | cons x xs ih =>
    cases hx : p x with
    | true =>
      simp only [List.find?, hx, Option.some_inj] at hfind
      subst hfind
      simp only [removeFirst, hx, if_pos]
      rw [List.find?_eq_none]
      intro y hy hqy
      have h2 : (2 : Nat) ≤ ((x :: xs).filter q).length := by
        rw [List.filter_cons_of_pos hq]
        have : y ∈ xs.filter q := List.mem_filter.mpr ⟨hy, hqy⟩
        have : 0 < (xs.filter q).length :=
          List.length_pos.mpr (List.ne_nil_of_mem this)
        simpa using this
      omega
    | false =>
      simp only [List.find?, hx] at hfind
      have hr : r ∈ xs := List.mem_of_find?_eq_some hfind
      have hqx : q x = false := by
        by_contra hcon
        have hqx' : q x = true := by simpa using hcon
        have h2 : (2 : Nat) ≤ ((x :: xs).filter q).length := by
          rw [List.filter_cons_of_pos hqx']
          have : r ∈ xs.filter q := List.mem_filter.mpr ⟨hr, hq⟩
          have : 0 < (xs.filter q).length :=
            List.length_pos.mpr (List.ne_nil_of_mem this)
          simpa using this
        omega
      have hlen' : (xs.filter q).length ≤ 1 := by
        rwa [List.filter_cons_of_neg (by simp [hqx])] at hlen
      simp only [removeFirst, hx, if_neg, List.find?, hqx]
      exact ih hfind hlen'

/-- When at most one element satisfies `q`, the first `p`-match `r` is
such an element, and its rewritten image no longer satisfies `q`, the
updated collection has no `q`-match. -/
theorem find?_updateFirst_unique (p q : α → Bool) (f : α → α) (l : List α)
    (r : α) (hfind : l.find? p = some r) (hq : q r = true)
    (hfr : q (f r) = false) (hlen : (l.filter q).length ≤ 1) :
    (updateFirst p f l).find? q = none := by
  induction l with
  | nil => simp at hfind
  | cons x xs ih =>
    cases hx : p x with
    | true =>
      simp only [List.find?, hx, Option.some_inj] at hfind
      subst hfind
      simp only [updateFirst, hx, if_pos, List.find?, hfr]
      rw [List.find?_eq_none]
      intro y hy hqy
      have h2 : (2 : Nat) ≤ ((x :: xs).filter q).length := by
        rw [List.filter_cons_of_pos hq]
        have : y ∈ xs.filter q := List.mem_filter.mpr ⟨hy, hqy⟩
        have : 0 < (xs.filter q).length :=
          List.length_pos.mpr (List.ne_nil_of_mem this)
        simpa using this
      omega
    | false =>
      simp only [List.find?, hx] at hfind
      have hr : r ∈ xs := List.mem_of_find?_eq_some hfind
      have hqx : q x = false := by
        by_contra hcon
        have hqx' : q x = true := by simpa using hcon
        have h2 : (2 : Nat) ≤ ((x :: xs).filter q).length := by
          rw [List.filter_cons_of_pos hqx']
          have : r ∈ xs.filter q := List.mem_filter.mpr ⟨hr, hq⟩
          have : 0 < (xs.filter q).length :=
            List.length_pos.mpr (List.ne_nil_of_mem this)
          simpa using this
        omega
      have hlen' : (xs.filter q).length ≤ 1 := by
        rwa [List.filter_cons_of_neg (by simp [hqx])] at hlen
      simp only [updateFirst, hx, if_neg, List.find?, hqx]
      exact ih hfind hlen'

/-! Concrete fixtures used by closed examples and witnesses. -/

/-- Authenticated identity with `rateLimit = 2`, as in the two-request
scenario of the spec. -/
def acmeClient : ApiClient :=
  { clientId := "acme_1", name := "Acme", rateLimit := 2 }

/-- A stored record that is inactive, expired, and IP-restricted at
once, to exercise the error-priority order. -/
def disabledRecord : ApiKeyRecord :=
  { key := "sk_dis", name := "Disabled Co", clientId := "dis_1",
    isActive := false, rateLimit := 100, usageCount := 0, lastUsed := none,
    createdAt := 0, expiresAt := some 10, allowedIPs := ["1.2.3.4"],
    metadata := [], contactEmail := none, notes := none }

/-- A request presenting the key of `disabledRecord` from a
non-whitelisted address. -/
def disabledRequest : Request :=
  { xApiKey := some "sk_dis", authorization := none, ip := some "9.9.9.9",
    remoteAddress := none, path := "/api/v1/profiles" }

/-! Claim theorems. -/

/-- C1: after authentication, the quota enforcer counts the UsageEvents
of the clientId whose timestamp is at least `now − 1h`; if that count
reaches `rateLimit` the request is rejected with 429
`RATE_LIMIT_EXCEEDED` carrying the configured limit and
`retryAfter = 3600`, and no UsageEvent is appended; otherwise exactly
one event `{clientId, endpoint := path, timestamp := now}` is appended
and the request is admitted. In particular with `rateLimit = 2` the
first two requests within an hour are admitted and the third is
rejected with `limit = 2`, `retryAfter = 3600`. -/
theorem quota_window_count_admission (client : ApiClient)
    (ledger : List UsageEvent) (now : Int) (reqPath : String) :
    (((countRecentRequests ledger client.clientId (now - 60 * 60 * 1000) : Int) ≥
        client.rateLimit →
      rateLimitByApiKey client ledger now reqPath true true =
        .rejected client.rateLimit 3600 ledger) ∧
     ((countRecentRequests ledger client.clientId (now - 60 * 60 * 1000) : Int) <
        client.rateLimit →
      rateLimitByApiKey client ledger now reqPath true true =
        .admitted (ledger ++
          [{ clientId := client.clientId, endpoint := reqPath,
             timestamp := now }]))) ∧
    (rateLimitByApiKey acmeClient [] 0 "/profiles" true true =
       .admitted [⟨"acme_1", "/profiles", 0⟩] ∧
     rateLimitByApiKey acmeClient [⟨"acme_1", "/profiles", 0⟩] 1000
         "/profiles" true true =
       .admitted [⟨"acme_1", "/profiles", 0⟩, ⟨"acme_1", "/profiles", 1000⟩] ∧
     rateLimitByApiKey acmeClient
         [⟨"acme_1", "/profiles", 0⟩, ⟨"acme_1", "/profiles", 1000⟩] 2000
         "/profiles" true true =
       .rejected 2 3600
         [⟨"acme_1", "/profiles", 0⟩, ⟨"acme_1", "/profiles", 1000⟩]) := by
  refine ⟨⟨?_, ?_⟩, by decide⟩
  · intro h
    norm_num at h
    simp [rateLimitByApiKey, h]
  · intro h
    norm_num at h
    simp [rateLimitByApiKey, h, not_le.mpr h]

/-- C1 witness: a first request from an empty ledger is admitted and
logged. -/
theorem quota_window_count_admission_witness :
    rateLimitByApiKey acmeClient [] 5000 "/p" true true =
      .admitted [⟨"acme_1", "/p", 5000⟩] :=
  ((quota_window_count_admission acmeClient [] 5000 "/p").1).2 (by decide)

/-- C2: the standing checks run in the fixed order active → expiry → IP
once the secret resolves, so an inactive record always reports
`disabledKey` regardless of expiry or IP state, and an active but
expired record with a disallowed IP reports `expiredKey`, not
`ipNotAllowed`. -/
theorem auth_failure_priority_order (req : Request)
    (store : List ApiKeyRecord) (now : Int) (saveOk : Bool)
    (apiKey : String) (doc : ApiKeyRecord)
    (hp : presentedKey req = some apiKey) (hne : apiKey ≠ "")
    (hfind : store.find? (fun d => d.key == apiKey) = some doc) :
    (doc.isActive = false →
      authenticateApiKey req store now saveOk = .disabledKey) ∧
    (doc.isActive = true → isExpired doc now = true →
      ipBlocked doc req = true →
      authenticateApiKey req store now saveOk = .expiredKey) := by
  constructor
  · intro h
    simp [authenticateApiKey, hp, hne, hfind, h]
  · intro h1 h2 _
    simp [authenticateApiKey, hp, hne, hfind, h1, h2]

/-- C2 witness: the inactive, expired, IP-restricted record reports
`disabledKey` to a request from a non-whitelisted address after
expiry. -/
theorem auth_failure_priority_order_witness :
    authenticateApiKey disabledRequest [disabledRecord] 99 true =
      .disabledKey :=
  (auth_failure_priority_order disabledRequest [disabledRecord] 99 true
    "sk_dis" disabledRecord (by decide) (by decide) (by decide)).1 (by decide)

/-- A stored record passing every standing check for `okRequest`. -/
def okRecord : ApiKeyRecord :=
  { key := "sk_live_1", name := "Acme", clientId := "acme_1",
    isActive := true, rateLimit := 100, usageCount := 5, lastUsed := none,
    createdAt := 0, expiresAt := none, allowedIPs := [], metadata := [],
    contactEmail := none, notes := none }

/-- A request presenting the key of `okRecord`. -/
def okRequest : Request :=
  { xApiKey := some "sk_live_1", authorization := none,
    ip := some "10.0.0.1", remoteAddress := none, path := "/api/v1/profiles" }

/-- C3 counterexample: a request that passes every standing check is
authenticated when the usage-stats save succeeds, but when the save
throws, the catch block answers 500 `AUTH_ERROR` — the request is
rejected, not admitted, contradicting the claim that a persist failure
does not invalidate the decision. -/
theorem auth_persist_failure_counterexample :
    authenticateApiKey okRequest [okRecord] 1000 true =
      .success { clientId := "acme_1", name := "Acme", rateLimit := 100 }
        [{ okRecord with usageCount := 6, lastUsed := some 1000 }] ∧
    authenticateApiKey okRequest [okRecord] 1000 false = .authError := by
  decide

/-- C3 (amended): for a request passing every standing check, the
authentication outcome is decided by the usage-counter persist step:
when the save succeeds the request proceeds with the resolved identity,
but when the save throws, the middleware rejects the request with 500
`AUTH_ERROR` (fail-closed), rather than letting it proceed. -/
theorem auth_persist_failure_rejects (req : Request)
    (store : List ApiKeyRecord) (now : Int) (apiKey : String)
    (doc : ApiKeyRecord)
    (hp : presentedKey req = some apiKey) (hne : apiKey ≠ "")
    (hfind : store.find? (fun d => d.key == apiKey) = some doc)
    (hact : doc.isActive = true) (hexp : isExpired doc now = false)
    (hip : ipBlocked doc req = false) :
    authenticateApiKey req store now false = .authError ∧
    authenticateApiKey req store now true =
      .success { clientId := doc.clientId, name := doc.name,
                 rateLimit := doc.rateLimit }
        (updateFirst (fun d => d.key == apiKey)
          (fun d => { d with usageCount := d.usageCount + 1,
                             lastUsed := some now }) store) := by
  constructor <;> simp [authenticateApiKey, hp, hne, hfind, hact, hexp, hip]

/-- C3 witness: the passing record is rejected with `AUTH_ERROR` when
the save fails. -/
theorem auth_persist_failure_rejects_witness :
    authenticateApiKey okRequest [okRecord] 1000 false = .authError :=
  (auth_persist_failure_rejects okRequest [okRecord] 1000 "sk_live_1"
    okRecord (by decide) (by decide) (by decide) (by decide) (by decide)
    (by decide)).1

/-- C4: the quota enforcer is fail-open — when the window count throws,
the request is admitted with the ledger untouched whatever the append
would have done; and when the count succeeds under the limit but the
append throws, the request is still admitted unrecorded. No rejection
is produced by a ledger failure. -/
theorem quota_fail_open (client : ApiClient) (ledger : List UsageEvent)
    (now : Int) (reqPath : String) :
    (∀ createOk : Bool,
      rateLimitByApiKey client ledger now reqPath false createOk =
        .admitted ledger) ∧
    ((countRecentRequests ledger client.clientId (now - 60 * 60 * 1000) : Int) <
        client.rateLimit →
      rateLimitByApiKey client ledger now reqPath true false =
        .admitted ledger) := by
  constructor
  · intro createOk
    simp [rateLimitByApiKey]
  · intro h
    norm_num at h
    simp [rateLimitByApiKey, h, not_le.mpr h]

/-- C4 witness: a count failure admits the request with the ledger
unchanged. -/
theorem quota_fail_open_witness :
    rateLimitByApiKey acmeClient [] 0 "/p" true false = .admitted [] :=
  (quota_fail_open acmeClient [] 0 "/p").2 (by decide)

/-- C5: soft revoke (no hard flag) answers success and sets the stored
record inactive while keeping it, so the admin listing still returns a
record for that clientId with `isActive = false`; hard revoke answers
success and removes the record, after which lookups by the old key and
by the clientId both fail. The uniqueness hypotheses are the schema
`unique` constraints on `key` and `clientId`. -/
theorem revoke_soft_keeps_hard_removes (store : List ApiKeyRecord)
    (c : String) (r : ApiKeyRecord)
    (hfind : store.find? (fun d => d.clientId == c) = some r)
    (hkey : (store.filter (fun d => d.key == r.key)).length ≤ 1)
    (hcid : (store.filter (fun d => d.clientId == c)).length ≤ 1) :
    (deleteApiKey store c none =
      .ok "API key deactivated"
        (updateFirst (fun d => d.clientId == c)
          (fun d => { d with isActive := false }) store)) ∧
    (∃ k, k ∈ listApiKeys
        (updateFirst (fun d => d.clientId == c)
          (fun d => { d with isActive := false }) store) none none ∧
      k.clientId = c ∧ k.isActive = false) ∧
    (deleteApiKey store c (some "true") =
      .ok "API key deleted permanently"
        (removeFirst (fun d => d.clientId == c) store)) ∧
    ((removeFirst (fun d => d.clientId == c) store).find?
        (fun d => d.key == r.key) = none) ∧
    ((removeFirst (fun d => d.clientId == c) store).find?
        (fun d => d.clientId == c) = none) := by
  have hcr : (r.clientId == c) = true := by
    have h := List.find?_some hfind
    simpa using h
  refine ⟨by simp [deleteApiKey], ?_, by simp [deleteApiKey], ?_, ?_⟩
  · refine ⟨{ r with isActive := false }, ?_, eq_of_beq hcr, rfl⟩
    have hmem := mem_updateFirst (fun d => d.clientId == c)
      (fun d => { d with isActive := false }) store r hfind
    simpa [listApiKeys, List.mem_mergeSort] using hmem
  · exact find?_removeFirst_unique _ _ store r hfind (by simp) hkey
  · exact find?_removeFirst_unique _ _ store r hfind hcr hcid

/-- C5 witness: hard-deleting the only record for a clientId leaves no
record found under that clientId. -/
theorem revoke_soft_keeps_hard_removes_witness :
    (removeFirst (fun d => d.clientId == "acme_1") [okRecord]).find?
      (fun d => d.clientId == "acme_1") = none :=
  (revoke_soft_keeps_hard_removes [okRecord] "acme_1" okRecord (by decide)
    (by decide) (by decide)).2.2.2.2

/-- Body of a well-formed create call, reused by witnesses. -/
def acmeBody : CreateBody :=
  { name := some "Acme", clientId := some "acme_1", rateLimit := some 2,
    expiresInDays := none, allowedIPs := none, contactEmail := none,
    notes := none }

/-- C6: a first create for a fresh clientId appends exactly one new
record, and a second create with the same clientId fails with the
duplicate-client error, leaving the store exactly as the first call
left it — no partial record. -/
theorem create_duplicate_client_rejected (store : List ApiKeyRecord)
    (b1 b2 : CreateBody) (k1 k2 : String) (t1 t2 : Int)
    (hn1 : jsTruthy b1.name = true) (hc1 : jsTruthy b1.clientId = true)
    (hfresh : store.find?
      (fun d => d.clientId == b1.clientId.getD "") = none)
    (hn2 : jsTruthy b2.name = true) (hsame : b2.clientId = b1.clientId) :
    createApiKey store b1 k1 t1 =
      .created k1 (store ++ [newRecord b1 k1 t1]) ∧
    createApiKey (store ++ [newRecord b1 k1 t1]) b2 k2 t2 =
      .badRequest "Client ID already exists"
        (store ++ [newRecord b1 k1 t1]) := by
  have hc2 : jsTruthy b2.clientId = true := by rw [hsame]; exact hc1
  constructor
  · simp [createApiKey, hn1, hc1, hfresh]
  · have hfind2 : (store ++ [newRecord b1 k1 t1]).find?
        (fun d => d.clientId == b2.clientId.getD "") =
        some (newRecord b1 k1 t1) := by
      rw [hsame, List.find?_append, hfresh]
      simp [List.find?, newRecord]
    simp [createApiKey, hn2, hc2, hfind2]

/-- C6 witness: creating `acme_1` twice from an empty store fails the
second time with the duplicate error and an unchanged store. -/
theorem create_duplicate_client_rejected_witness :
    createApiKey ([] ++ [newRecord acmeBody "sk_a" 0]) acmeBody "sk_b" 5 =
      .badRequest "Client ID already exists"
        ([] ++ [newRecord acmeBody "sk_a" 0]) :=
  (create_duplicate_client_rejected [] acmeBody acmeBody "sk_a" "sk_b" 0 5
    (by decide) (by decide) (by decide) (by decide) rfl).2

/-- C7: regenerate replaces the stored key with the fresh secret,
resets `usageCount` to 0 and `lastUsed` to null, and afterwards every
authentication attempt presenting the previously issued key fails with
`invalidKey` (401 `INVALID_API_KEY`), with no grace period. The length
hypothesis is the schema `unique` constraint on `key`; freshness of the
generated secret gives `freshKey ≠ r.key`. -/
theorem regenerate_resets_and_invalidates_old_key
    (store : List ApiKeyRecord) (c freshKey : String) (r : ApiKeyRecord)
    (hfind : store.find? (fun d => d.clientId == c) = some r)
    (hkey : (store.filter (fun d => d.key == r.key)).length ≤ 1)
    (hnew : freshKey ≠ r.key) (hne : r.key ≠ "") :
    regenerateApiKey store c freshKey =
      .regenerated freshKey
        (updateFirst (fun d => d.clientId == c)
          (fun d => { d with key := freshKey, usageCount := 0,
                             lastUsed := none }) store) ∧
    { r with key := freshKey, usageCount := 0, lastUsed := none } ∈
      updateFirst (fun d => d.clientId == c)
        (fun d => { d with key := freshKey, usageCount := 0,
                           lastUsed := none }) store ∧
    ∀ (req : Request) (now : Int) (saveOk : Bool),
      presentedKey req = some r.key →
      authenticateApiKey req
        (updateFirst (fun d => d.clientId == c)
          (fun d => { d with key := freshKey, usageCount := 0,
                             lastUsed := none }) store) now saveOk =
        .invalidKey := by
  refine ⟨by simp [regenerateApiKey, hfind],
    mem_updateFirst _ _ store r hfind, ?_⟩
  intro req now saveOk hp
  have hnone := find?_updateFirst_unique (fun d => d.clientId == c)
    (fun d => d.key == r.key)
    (fun d => { d with key := freshKey, usageCount := 0, lastUsed := none })
    store r hfind (by simp) (by simp [hnew]) hkey
  simp [authenticateApiKey, hp, hne, hnone]

/-- C7 witness: after regeneration, presenting the old key of
`okRecord` is answered with `invalidKey`. -/
theorem regenerate_resets_and_invalidates_old_key_witness :
    authenticateApiKey okRequest
      (updateFirst (fun d => d.clientId == "acme_1")
        (fun d => { d with key := "sk_live_2", usageCount := 0,
                           lastUsed := none }) [okRecord]) 7 true =
      .invalidKey :=
  (regenerate_resets_and_invalidates_old_key [okRecord] "acme_1"
    "sk_live_2" okRecord (by decide) (by decide) (by decide)
    (by decide)).2.2 okRequest 7 true (by decide)

/-- C8: an update call rewrites the stored record through
`applyUpdates`, which copies exactly the allow-listed fields that were
supplied; the non-allow-listed fields of the body — `key`, `clientId`,
`usageCount`, `createdAt` — are never read, so the stored values are
unchanged whatever the body supplies, and supplying them is not an
error. -/
theorem update_restricted_to_allow_list (store : List ApiKeyRecord)
    (c : String) (body : UpdateBody) (r : ApiKeyRecord)
    (hfind : store.find? (fun d => d.clientId == c) = some r) :
    updateApiKey store c body =
      .updated (applyUpdates body r)
        (updateFirst (fun d => d.clientId == c) (applyUpdates body) store) ∧
    (applyUpdates body r).key = r.key ∧
    (applyUpdates body r).clientId = r.clientId ∧
    (applyUpdates body r).usageCount = r.usageCount ∧
    (applyUpdates body r).createdAt = r.createdAt ∧
    (applyUpdates body r).metadata = r.metadata ∧
    (applyUpdates body r).name = body.name.getD r.name ∧
    (applyUpdates body r).isActive = body.isActive.getD r.isActive ∧
    (applyUpdates body r).rateLimit = body.rateLimit.getD r.rateLimit ∧
    (applyUpdates body r).expiresAt = body.expiresAt.getD r.expiresAt ∧
    (applyUpdates body r).allowedIPs = body.allowedIPs.getD r.allowedIPs ∧
    (applyUpdates body r).contactEmail =
      body.contactEmail.getD r.contactEmail ∧
    (applyUpdates body r).notes = body.notes.getD r.notes := by
  refine ⟨by simp [updateApiKey, hfind], rfl, rfl, rfl, rfl, rfl, rfl,
    rfl, rfl, rfl, rfl, rfl, rfl⟩

/-- Update body that also tries to overwrite `key`, `clientId`,
`usageCount` and `createdAt`. -/
def sneakyBody : UpdateBody :=
  { name := some "NewName", isActive := none, rateLimit := none,
    expiresAt := none, allowedIPs := none, contactEmail := none,
    notes := none, key := some "sk_evil", clientId := some "evil_1",
    usageCount := some 999, createdAt := some 42 }

/-- C8 witness: the stored key survives a body that supplies a new
one. -/
theorem update_restricted_to_allow_list_witness :
    (applyUpdates sneakyBody okRecord).key = okRecord.key :=
  (update_restricted_to_allow_list [okRecord] "acme_1" sneakyBody okRecord
    (by decide)).2.1

/-- C9: the model places no lower bound on `rateLimit` — creation
stores whatever number the body supplies, defaulting to 100 only when
absent — and a client whose `rateLimit` is 0 or negative is rejected
with 429 by every quota check, since the window count is a natural
number: such a client can never make an admitted request. -/
theorem nonpositive_rate_limit_never_admits (client : ApiClient)
    (ledger : List UsageEvent) (now : Int) (reqPath : String)
    (h : client.rateLimit ≤ 0) :
    rateLimitByApiKey client ledger now reqPath true true =
      .rejected client.rateLimit 3600 ledger ∧
    ∀ (b : CreateBody) (k : String) (t : Int),
      (newRecord b k t).rateLimit = b.rateLimit.getD 100 := by
  constructor
  · have hge : (countRecentRequests ledger client.clientId
        (now - 3600000) : Int) ≥ client.rateLimit :=
      le_trans h (Int.natCast_nonneg _)
    simp [rateLimitByApiKey, hge]
  · intro b k t
    rfl

/-- Identity whose quota is zero. -/
def zeroClient : ApiClient :=
  { clientId := "zero_1", name := "Zero Co", rateLimit := 0 }

/-- C9 witness: the zero-limit client is rejected even on an empty
ledger. -/
theorem nonpositive_rate_limit_never_admits_witness :
    rateLimitByApiKey zeroClient [] 0 "/p" true true =
      .rejected 0 3600 [] :=
  (nonpositive_rate_limit_never_admits zeroClient [] 0 "/p" (by decide)).1

/-- C10: deleting a clientId with no stored record still answers
success in both modes — "deleted permanently" for hard, "deactivated"
otherwise — and the store is unchanged. -/
theorem delete_missing_client_reports_success (store : List ApiKeyRecord)
    (c : String)
    (hfind : store.find? (fun d => d.clientId == c) = none) :
    deleteApiKey store c (some "true") =
      .ok "API key deleted permanently" store ∧
    ∀ q : Option String, q ≠ some "true" →
      deleteApiKey store c q = .ok "API key deactivated" store := by
  constructor
  · simp [deleteApiKey, removeFirst_eq_self _ _ hfind]
  · intro q hq
    have hq' : (q == some "true") = false := by simp [hq]
    simp [deleteApiKey, hq', updateFirst_eq_self _ _ _ hfind]

/-- C10 witness: deleting a clientId absent from an empty store answers
success with the store unchanged. -/
theorem delete_missing_client_reports_success_witness :
    deleteApiKey [] "ghost" (some "true") =
      .ok "API key deleted permanently" [] :=
  (delete_missing_client_reports_success [] "ghost" (by decide)).1

end Gateway
